import Mathlib

/-!
Verification of the Neural-OS native bootstrap shim
(`src/src-tauri/src/lib.rs`), a Tauri process supervisor that, in release
builds, spawns a bundled `server.mjs` under `node` at startup and kills it
on shutdown.  The Rust code is shallowly embedded: the Tauri `AppHandle`
becomes a record of oracles (resource resolution, OS spawn), the
`Mutex<Option<Child>>` managed state becomes an explicit slot with a
poisoned flag (`lock()` succeeds iff the mutex is not poisoned), and the
kill/wait side effects are recorded as an action trace while their results
come from an OS oracle and are discarded exactly where the Rust discards
them with `let _ = ...`.
-/

namespace NeuralOS

/-- An OS-level child process handle (`std::process::Child`), identified
abstractly by a pid. -/
structure Child where
  pid : Nat
deriving DecidableEq, Repr

/-- Configuration of one standard stream of a spawned command
(`std::process::Stdio`): `null` discards/closes, `inheritStream` inherits,
`piped` captures. -/
inductive StdioCfg where
  | null
  | inheritStream
  | piped
deriving DecidableEq, Repr

/-- The full command configuration handed to the OS on spawn: program name,
argument list, environment additions, and the three standard streams.
Mirrors the builder chain `Command::new(..).arg(..).env(..).stdin(..)
.stdout(..).stderr(..)` of lib.rs lines 18-23. -/
structure SpawnConfig where
  program : String
  args : List String
  env : List (String × String)
  stdinCfg : StdioCfg
  stdoutCfg : StdioCfg
  stderrCfg : StdioCfg
deriving DecidableEq, Repr

/-- Tauri path-resolution base directories; the code only uses `Resource`. -/
inductive BaseDirectory where
  | Resource
  | AppData
  | Home
deriving DecidableEq, Repr

/-- The application context (`tauri::AppHandle`) as the two capabilities the
release supervisor uses: resolving a bundled resource path
(`app.path().resolve(name, base)`) and creating an OS process
(`Command::spawn`).  Both are fallible, returning the OS error text. -/
structure AppContext where
  resolveResource : String → BaseDirectory → Except String String
  spawn : SpawnConfig → Except String Child

/-- The command built at lib.rs lines 18-23: program `node`, the single
argument `server_script`, the port environment variable, and all three
standard streams set to `Stdio::null()`. -/
def localServerCommand (server_script : String) : SpawnConfig :=
  { program := "node"
    args := [server_script]
    env := [("NEURAL_COMPUTER_SERVER_PORT", "8787")]
    stdinCfg := StdioCfg.null
    stdoutCfg := StdioCfg.null
    stderrCfg := StdioCfg.null }

/-- `spawn_local_server` (lib.rs lines 12-26): resolve the bundled
`server.mjs` against the Resource base directory, mapping a resolution
error to `"failed to resolve bundled server.mjs: {error}"`, then spawn the
`node` command, mapping a spawn error to
`"failed to spawn local API server: {error}"`. -/
def spawn_local_server (app : AppContext) : Except String Child :=
  match app.resolveResource "server.mjs" BaseDirectory.Resource with
  | Except.error e => Except.error ("failed to resolve bundled server.mjs: " ++ e)
  | Except.ok server_script =>
    match app.spawn (localServerCommand server_script) with
    | Except.error e => Except.error ("failed to spawn local API server: " ++ e)
    | Except.ok child => Except.ok child

/-- The managed state `LocalServerState(Mutex<Option<Child>>)` (lib.rs
line 9): the mutex is modelled by a `poisoned` flag — `lock()` returns
`Ok(guard)` iff the mutex is not poisoned — and the guarded
`Option<Child>` slot. -/
structure LocalServerState where
  poisoned : Bool
  child : Option Child
deriving DecidableEq, Repr

/-- The OS-level process actions the terminator can perform, recorded as a
trace in the order the code performs them. -/
inductive ProcAction where
  | kill (c : Child)
  | wait (c : Child)
deriving DecidableEq, Repr

/-- OS oracle for the results of `Child::kill` and `Child::wait`; the Rust
code discards both results (`let _ = ...`). -/
structure ProcOs where
  killResult : Child → Except String Unit
  waitResult : Child → Except String Nat

/-- `stop_local_server` (lib.rs lines 29-39).  `app.try_state` finding no
`LocalServerState` is the `none` case; otherwise `state.0.lock()` succeeds
iff the mutex is not poisoned, and only then: if a child is stored, kill
then wait (results discarded), and clear the slot.  Returns the new state
together with the trace of process actions performed. -/
def stop_local_server (os : ProcOs) (st : Option LocalServerState) :
    Option LocalServerState × List ProcAction :=
  match st with
  | none => (none, [])
  | some slot =>
    match slot.poisoned with
    | true => (some slot, [])
    | false =>
      match slot.child with
      | some child =>
        let _ := os.killResult child
        let _ := os.waitResult child
        (some { poisoned := false, child := none },
         [ProcAction.kill child, ProcAction.wait child])
      | none => (some { poisoned := false, child := none }, [])

/-- The release-mode setup hook body (lib.rs lines 53-58): spawn the local
server, propagating its error out of the hook (`?` after wrapping in
`io::Error::other`, which preserves the message), and on success install
`LocalServerState(Mutex::new(Some(child)))` — a fresh, unpoisoned slot
holding the child. -/
def setup_release (app : AppContext) : Except String (Option LocalServerState) :=
  match spawn_local_server app with
  | Except.error e => Except.error e
  | Except.ok child => Except.ok (some { poisoned := false, child := some child })

/-- The run-loop events the handler distinguishes (`tauri::RunEvent`);
only `ExitRequested` and `Exit` are matched, everything else falls to
the wildcard arm. -/
inductive RunEvent where
  | ExitRequested
  | Exit
  | Ready
  | WindowEvent
  | MainEventsCleared
deriving DecidableEq, Repr

/-- The release-mode run-loop callback (lib.rs lines 67-73): both
`ExitRequested` and `Exit` invoke `stop_local_server`; all other events do
nothing. -/
def handle_run_event_release (os : ProcOs) (ev : RunEvent)
    (st : Option LocalServerState) : Option LocalServerState × List ProcAction :=
  match ev with
  | RunEvent.ExitRequested => stop_local_server os st
  | RunEvent.Exit => stop_local_server os st
  | _ => (st, [])

/-- One step of the release-mode run loop threading the state and
accumulating the trace of process actions. -/
def step_release (os : ProcOs) (acc : Option LocalServerState × List ProcAction)
    (ev : RunEvent) : Option LocalServerState × List ProcAction :=
  let r := handle_run_event_release os ev acc.1
  (r.1, acc.2 ++ r.2)

/-- The release-mode application lifecycle: run the setup hook (aborting the
whole application if it errors — the builder fails and no state ever
exists), then process the run-loop events in order. -/
def run_release (app : AppContext) (os : ProcOs) (events : List RunEvent) :
    Except String (Option LocalServerState × List ProcAction) :=
  match setup_release app with
  | Except.error e => Except.error e
  | Except.ok st => Except.ok (events.foldl (step_release os) (st, []))

/-- Log verbosity levels (`log::LevelFilter`). -/
inductive LevelFilter where
  | Off
  | ErrorLevel
  | Warn
  | Info
  | Debug
  | Trace
deriving DecidableEq, Repr

/-- Configuration of the structured logging plugin
(`tauri_plugin_log::Builder::default().level(l).build()`). -/
structure LogPluginConfig where
  level : LevelFilter
deriving DecidableEq, Repr

/-- The debug-mode application context: the only capability the debug setup
path uses is registering a plugin (fallible, via `?`).  It has no spawn
capability at all — the supervisor is compiled out. -/
structure DebugCtx where
  installPlugin : LogPluginConfig → Except String Unit

/-- The debug-mode setup hook body (lib.rs lines 44-51): install the log
plugin at `LevelFilter::Info`, propagating a plugin error via `?`; no
managed state is installed (the returned state is `none`). -/
def setup_debug (ctx : DebugCtx) : Except String (Option LocalServerState) :=
  match ctx.installPlugin { level := LevelFilter.Info } with
  | Except.error e => Except.error e
  | Except.ok _ => Except.ok none

/-- The debug-mode run-loop callback: the `stop_local_server` call inside
the exit arm is compiled out (`cfg(not(debug_assertions))`), so every arm
is empty — the state is untouched and no process action is performed. -/
def handle_run_event_debug (ev : RunEvent) (st : Option LocalServerState) :
    Option LocalServerState × List ProcAction :=
  match ev with
  | RunEvent.ExitRequested => (st, [])
  | RunEvent.Exit => (st, [])
  | _ => (st, [])

/-- One step of the debug-mode run loop (same threading as release, but
with the debug event handler). -/
def step_debug (acc : Option LocalServerState × List ProcAction)
    (ev : RunEvent) : Option LocalServerState × List ProcAction :=
  let r := handle_run_event_debug ev acc.1
  (r.1, acc.2 ++ r.2)

/-- The debug-mode application lifecycle: run the debug setup hook, then
process the run-loop events in order. -/
def run_debug (ctx : DebugCtx) (events : List RunEvent) :
    Except String (Option LocalServerState × List ProcAction) :=
  match setup_debug ctx with
  | Except.error e => Except.error e
  | Except.ok st => Except.ok (events.foldl step_debug (st, []))

/-- A state is "installed-or-cleared for child c": the single slot exists,
is unpoisoned, and holds either the launched child or nothing. -/
def slotOk (c : Child) (st : Option LocalServerState) : Prop :=
  st = some { poisoned := false, child := some c } ∨
  st = some { poisoned := false, child := none }

/-- Concrete OS oracle whose kill/wait always succeed. -/
def os0 : ProcOs :=
  { killResult := fun _ => Except.ok ()
    waitResult := fun _ => Except.ok 0 }

/-- Concrete OS oracle whose kill/wait always fail. -/
def osErr : ProcOs :=
  { killResult := fun _ => Except.error "ESRCH"
    waitResult := fun _ => Except.error "ECHILD" }

/-- A concrete child handle. -/
def child0 : Child := { pid := 1 }

/-- A concrete application context where resolution and spawn succeed. -/
def appOk : AppContext :=
  { resolveResource := fun _ _ => Except.ok "/resources/server.mjs"
    spawn := fun _ => Except.ok { pid := 42 } }

/-- A concrete application context where resolution fails. -/
def appNoRes : AppContext :=
  { resolveResource := fun _ _ => Except.error "resource folder missing"
    spawn := fun _ => Except.ok { pid := 42 } }

/-- A concrete application context where resolution succeeds but spawn
fails. -/
def appNoNode : AppContext :=
  { resolveResource := fun _ _ => Except.ok "/resources/server.mjs"
    spawn := fun _ => Except.error "No such file or directory (os error 2)" }

/-- A concrete debug context whose plugin registration succeeds. -/
def debugCtx0 : DebugCtx :=
  { installPlugin := fun _ => Except.ok () }

/-- Claim C1: in release configuration, whenever resolving the bundled
server script path fails, `spawn_local_server` returns an error whose
message includes the underlying resolution error text, the setup hook
propagates that error, and no managed state is installed (the lifecycle
never yields an `ok` state). -/
theorem C1_resolution_failure_propagates (app : AppContext) (os : ProcOs)
    (events : List RunEvent) (e : String)
    (h : app.resolveResource "server.mjs" BaseDirectory.Resource = Except.error e) :
    spawn_local_server app
      = Except.error ("failed to resolve bundled server.mjs: " ++ e) ∧
    (∃ pre post, "failed to resolve bundled server.mjs: " ++ e = pre ++ e ++ post) ∧
    setup_release app
      = Except.error ("failed to resolve bundled server.mjs: " ++ e) ∧
    ∀ st tr, run_release app os events ≠ Except.ok (st, tr) := by
  have hs : spawn_local_server app
      = Except.error ("failed to resolve bundled server.mjs: " ++ e) := by
    unfold spawn_local_server
    rw [h]
  have hsetup : setup_release app
      = Except.error ("failed to resolve bundled server.mjs: " ++ e) := by
    unfold setup_release
    rw [hs]
  refine ⟨hs, ⟨"failed to resolve bundled server.mjs: ", "", by simp⟩, hsetup, ?_⟩
  intro st tr hcon
  unfold run_release at hcon
  rw [hsetup] at hcon
  exact Except.noConfusion hcon

/-- Witness for C1: the concrete context whose resolution oracle fails. -/
theorem C1_witness :
    appNoRes.resolveResource "server.mjs" BaseDirectory.Resource
      = Except.error "resource folder missing" ∧
    spawn_local_server appNoRes
      = Except.error ("failed to resolve bundled server.mjs: "
          ++ "resource folder missing") :=
  ⟨rfl,
   (C1_resolution_failure_propagates appNoRes os0 [] "resource folder missing" rfl).1⟩

/-- Claim C2: in release configuration, whenever resolution succeeds but
creating the child process fails, `spawn_local_server` returns an error
whose message includes the underlying spawn error text, the setup hook
propagates that error, and no managed state is installed. -/
theorem C2_spawn_failure_propagates (app : AppContext) (os : ProcOs)
    (events : List RunEvent) (s e : String)
    (hres : app.resolveResource "server.mjs" BaseDirectory.Resource = Except.ok s)
    (hsp : app.spawn (localServerCommand s) = Except.error e) :
    spawn_local_server app
      = Except.error ("failed to spawn local API server: " ++ e) ∧
    (∃ pre post, "failed to spawn local API server: " ++ e = pre ++ e ++ post) ∧
    setup_release app
      = Except.error ("failed to spawn local API server: " ++ e) ∧
    ∀ st tr, run_release app os events ≠ Except.ok (st, tr) := by
  have hs : spawn_local_server app
      = Except.error ("failed to spawn local API server: " ++ e) := by
    simp only [spawn_local_server, hres, hsp]
  have hsetup : setup_release app
      = Except.error ("failed to spawn local API server: " ++ e) := by
    unfold setup_release
    rw [hs]
  refine ⟨hs, ⟨"failed to spawn local API server: ", "", by simp⟩, hsetup, ?_⟩
  intro st tr hcon
  unfold run_release at hcon
  rw [hsetup] at hcon
  exact Except.noConfusion hcon

/-- Witness for C2: the concrete context whose spawn oracle fails. -/
theorem C2_witness :
    appNoNode.resolveResource "server.mjs" BaseDirectory.Resource
      = Except.ok "/resources/server.mjs" ∧
    appNoNode.spawn (localServerCommand "/resources/server.mjs")
      = Except.error "No such file or directory (os error 2)" ∧
    spawn_local_server appNoNode
      = Except.error ("failed to spawn local API server: "
          ++ "No such file or directory (os error 2)") :=
  ⟨rfl, rfl,
   (C2_spawn_failure_propagates appNoNode os0 [] "/resources/server.mjs"
      "No such file or directory (os error 2)" rfl rfl).1⟩

/-- Claim C6: invoking the terminator when no managed state was ever
installed is a safe no-op — `stop_local_server` is a total function (no
panic, no error) that leaves the absent state absent and performs no
process action, for every OS oracle. -/
theorem C6_stop_without_state_is_noop (os : ProcOs) :
    stop_local_server os none = (none, []) := rfl

/-- Claim C10: the launcher's identifiers are fixed string constants — for
every application context it queries the resolution oracle at exactly
`"server.mjs"` under the `Resource` base directory, and the command it
hands to the OS names the program `"node"` and sets exactly the
environment variable `"NEURAL_COMPUTER_SERVER_PORT"`. -/
theorem C10_fixed_identifiers (app : AppContext) (s : String) :
    (localServerCommand s).program = "node" ∧
    (localServerCommand s).env = [("NEURAL_COMPUTER_SERVER_PORT", "8787")] ∧
    ((∃ e, app.resolveResource "server.mjs" BaseDirectory.Resource = Except.error e ∧
        spawn_local_server app
          = Except.error ("failed to resolve bundled server.mjs: " ++ e)) ∨
     (∃ sc, app.resolveResource "server.mjs" BaseDirectory.Resource = Except.ok sc ∧
        spawn_local_server app
          = Except.mapError (fun e => "failed to spawn local API server: " ++ e)
              (app.spawn (localServerCommand sc)))) := by
  refine ⟨rfl, rfl, ?_⟩
  cases hres : app.resolveResource "server.mjs" BaseDirectory.Resource with
  | error e =>
    refine Or.inl ⟨e, rfl, ?_⟩
    simp only [spawn_local_server, hres]
  | ok sc =>
    refine Or.inr ⟨sc, rfl, ?_⟩
    simp only [spawn_local_server, hres]
    cases app.spawn (localServerCommand sc) with
    | error e2 => simp [Except.mapError]
    | ok c => simp [Except.mapError]

/-- Claim C3 counterexample: when the mutual-exclusion guard cannot be
acquired (poisoned mutex), `stop_local_server` returns with the process
handle still stored — refuting the claim that the slot is cleared
unconditionally, including when the guard cannot be acquired. -/
theorem C3_counterexample :
    (stop_local_server os0 (some { poisoned := true, child := some child0 })).1
      = some { poisoned := true, child := some child0 } ∧
    (stop_local_server os0 (some { poisoned := true, child := some child0 })).1
      ≠ some { poisoned := true, child := none } ∧
    (stop_local_server os0 (some { poisoned := true, child := some child0 })).1
      ≠ none := by
  refine ⟨rfl, by decide, by decide⟩

/-- Claim C3 (amended): whenever the mutual-exclusion guard is acquired
(mutex not poisoned), the slot is cleared unconditionally — for every OS
oracle, so also when kill/wait error — and invoking with no managed state
stays stateless; but when the guard cannot be acquired, termination and
clearing are both skipped and the state is returned unchanged. -/
theorem C3_cleared_when_guard_acquired (os : ProcOs) (slot : LocalServerState)
    (h : slot.poisoned = false) :
    (stop_local_server os (some slot)).1
      = some { poisoned := false, child := none } ∧
    stop_local_server os none = (none, []) ∧
    ∀ slot2 : LocalServerState, slot2.poisoned = true →
      stop_local_server os (some slot2) = (some slot2, []) := by
  obtain ⟨p, c⟩ := slot
  dsimp at h
  subst h
  refine ⟨?_, rfl, ?_⟩
  · cases c <;> rfl
  · intro slot2 h2
    obtain ⟨p2, c2⟩ := slot2
    dsimp at h2
    subst h2
    rfl

/-- Witness for the amended C3, with an OS oracle whose kill and wait both
fail: the slot is still cleared. -/
theorem C3_witness :
    ({ poisoned := false, child := some child0 } : LocalServerState).poisoned
      = false ∧
    (stop_local_server osErr (some { poisoned := false, child := some child0 })).1
      = some { poisoned := false, child := none } :=
  ⟨rfl,
   (C3_cleared_when_guard_acquired osErr
      { poisoned := false, child := some child0 } rfl).1⟩

/-- Claim C4: on a successful launch the child is spawned from the command
with exactly one argument — the resolved script path — the port
environment variable set to exactly `"8787"`, standard input closed, and
standard output and standard error discarded. -/
theorem C4_spawn_configuration (app : AppContext) (c : Child)
    (h : spawn_local_server app = Except.ok c) :
    ∃ s, app.resolveResource "server.mjs" BaseDirectory.Resource = Except.ok s ∧
      app.spawn (localServerCommand s) = Except.ok c ∧
      (localServerCommand s).args = [s] ∧
      (localServerCommand s).env = [("NEURAL_COMPUTER_SERVER_PORT", "8787")] ∧
      (localServerCommand s).stdinCfg = StdioCfg.null ∧
      (localServerCommand s).stdoutCfg = StdioCfg.null ∧
      (localServerCommand s).stderrCfg = StdioCfg.null := by
  cases hres : app.resolveResource "server.mjs" BaseDirectory.Resource with
  | error e =>
    simp only [spawn_local_server, hres] at h
    exact Except.noConfusion h
  | ok s =>
    refine ⟨s, rfl, ?_, rfl, rfl, rfl, rfl, rfl⟩
    cases hsp : app.spawn (localServerCommand s) with
    | error e =>
      simp only [spawn_local_server, hres, hsp] at h
      exact Except.noConfusion h
    | ok c2 =>
      simp only [spawn_local_server, hres, hsp, Except.ok.injEq] at h
      rw [h]

/-- Witness for C4: the concrete context where both oracles succeed. -/
theorem C4_witness :
    spawn_local_server appOk = Except.ok { pid := 42 } ∧
    ∃ s, appOk.resolveResource "server.mjs" BaseDirectory.Resource = Except.ok s ∧
      appOk.spawn (localServerCommand s) = Except.ok { pid := 42 } ∧
      (localServerCommand s).args = [s] ∧
      (localServerCommand s).env = [("NEURAL_COMPUTER_SERVER_PORT", "8787")] ∧
      (localServerCommand s).stdinCfg = StdioCfg.null ∧
      (localServerCommand s).stdoutCfg = StdioCfg.null ∧
      (localServerCommand s).stderrCfg = StdioCfg.null :=
  ⟨rfl, C4_spawn_configuration appOk { pid := 42 } rfl⟩

/-- Claim C5: the terminator is idempotent — a second invocation leaves the
state of the first unchanged and performs no process action; after a first
invocation on an installed (unpoisoned) slot the stored handle is absent;
and both shutdown events, explicit exit request and final exit, dispatch
to the same `stop_local_server` routine. -/
theorem C5_idempotent_termination (os os2 : ProcOs)
    (st : Option LocalServerState) :
    stop_local_server os2 (stop_local_server os st).1
      = ((stop_local_server os st).1, []) ∧
    (∀ slot, st = some slot → slot.poisoned = false →
      (stop_local_server os st).1 = some { poisoned := false, child := none }) ∧
    (∀ s, handle_run_event_release os RunEvent.ExitRequested s
            = stop_local_server os s ∧
          handle_run_event_release os RunEvent.Exit s = stop_local_server os s) := by
  refine ⟨?_, ?_, fun s => ⟨rfl, rfl⟩⟩
  · cases st with
    | none => rfl
    | some slot =>
      obtain ⟨p, c⟩ := slot
      cases p
      · cases c <;> rfl
      · rfl
  · rintro slot rfl h
    obtain ⟨p, c⟩ := slot
    dsimp at h
    subst h
    cases c <;> rfl

/-- Witness for C5: a double stop starting from an installed slot. -/
theorem C5_witness :
    ({ poisoned := false, child := some child0 } : LocalServerState).poisoned
      = false ∧
    (stop_local_server os0 (some { poisoned := false, child := some child0 })).1
      = some { poisoned := false, child := none } :=
  ⟨rfl,
   (C5_idempotent_termination os0 os0
      (some { poisoned := false, child := some child0 })).2.1
     { poisoned := false, child := some child0 } rfl rfl⟩

/-- Claim C7: when a process handle is stored and the guard is acquired,
the terminator performs exactly a kill followed by a wait, in that order,
clears the slot, and its entire result is independent of the OS oracle's
kill/wait results — errors are discarded, never propagated. -/
theorem C7_kill_then_wait_errors_discarded (os os2 : ProcOs)
    (slot : LocalServerState) (c : Child)
    (hp : slot.poisoned = false) (hc : slot.child = some c) :
    (stop_local_server os (some slot)).2
      = [ProcAction.kill c, ProcAction.wait c] ∧
    (stop_local_server os (some slot)).1
      = some { poisoned := false, child := none } ∧
    stop_local_server os (some slot) = stop_local_server os2 (some slot) := by
  obtain ⟨p, ch⟩ := slot
  dsimp at hp hc
  subst hp
  subst hc
  exact ⟨rfl, rfl, rfl⟩

/-- Witness for C7, with an OS oracle whose kill and wait both fail: the
trace is still kill-then-wait. -/
theorem C7_witness :
    ({ poisoned := false, child := some child0 } : LocalServerState).poisoned
      = false ∧
    ({ poisoned := false, child := some child0 } : LocalServerState).child
      = some child0 ∧
    (stop_local_server osErr (some { poisoned := false, child := some child0 })).2
      = [ProcAction.kill child0, ProcAction.wait child0] :=
  ⟨rfl, rfl,
   (C7_kill_then_wait_errors_discarded osErr os0
      { poisoned := false, child := some child0 } child0 rfl rfl).1⟩

/-- Auxiliary: one run-loop step preserves the installed-or-cleared
characterization of the state slot. -/
theorem step_release_preserves_slotOk (os : ProcOs) (c : Child)
    (acc : Option LocalServerState × List ProcAction) (ev : RunEvent)
    (h : slotOk c acc.1) : slotOk c (step_release os acc ev).1 := by
  obtain ⟨st, tr⟩ := acc
  dsimp at h
  cases h with
  | inl h1 =>
    subst h1
    cases ev
    · exact Or.inr rfl
    · exact Or.inr rfl
    · exact Or.inl rfl
    · exact Or.inl rfl
    · exact Or.inl rfl
  | inr h1 =>
    subst h1
    cases ev
    · exact Or.inr rfl
    · exact Or.inr rfl
    · exact Or.inr rfl
    · exact Or.inr rfl
    · exact Or.inr rfl

/-- Auxiliary: the whole run loop preserves the installed-or-cleared
characterization of the state slot. -/
theorem foldl_step_release_slotOk (os : ProcOs) (c : Child)
    (events : List RunEvent) :
    ∀ acc : Option LocalServerState × List ProcAction, slotOk c acc.1 →
      slotOk c (events.foldl (step_release os) acc).1 := by
  induction events with
  | nil => intro acc h; exact h
  | cons ev rest ih =>
    intro acc h
    rw [List.foldl_cons]
    exact ih _ (step_release_preserves_slotOk os c acc ev h)

/-- Claim C8: the managed state is a single slot, installed exactly once at
startup immediately after a successful launch as "present, holding the
launched child"; thereafter — at every prefix of the run-loop events — it
is either still that installed slot or the cleared slot (handle absent),
and no other state is reachable. -/
theorem C8_single_slot_invariant (app : AppContext) (os : ProcOs)
    (events : List RunEvent) (st0 : Option LocalServerState)
    (h : setup_release app = Except.ok st0) :
    ∃ c, spawn_local_server app = Except.ok c ∧
      st0 = some { poisoned := false, child := some c } ∧
      (∀ n, slotOk c (((events.take n).foldl (step_release os) (st0, [])).1)) ∧
      run_release app os events
        = Except.ok (events.foldl (step_release os) (st0, [])) ∧
      slotOk c ((events.foldl (step_release os) (st0, [])).1) := by
  cases hsp : spawn_local_server app with
  | error e =>
    simp only [setup_release, hsp] at h
    exact Except.noConfusion h
  | ok c =>
    simp only [setup_release, hsp, Except.ok.injEq] at h
    subst h
    refine ⟨c, rfl, rfl, ?_, ?_, ?_⟩
    · intro n
      exact foldl_step_release_slotOk os c (events.take n) _ (Or.inl rfl)
    · simp only [run_release, setup_release, hsp]
    · exact foldl_step_release_slotOk os c events _ (Or.inl rfl)

/-- Witness for C8: the successful concrete context, with a run where both
exit events fire. -/
theorem C8_witness :
    setup_release appOk
      = Except.ok (some { poisoned := false, child := some { pid := 42 } }) ∧
    ∃ c, spawn_local_server appOk = Except.ok c ∧
      (some { poisoned := false, child := some { pid := 42 } }
          : Option LocalServerState)
        = some { poisoned := false, child := some c } ∧
      (∀ n, slotOk c ((([RunEvent.Ready, RunEvent.ExitRequested,
            RunEvent.Exit].take n).foldl (step_release os0)
            (some { poisoned := false, child := some { pid := 42 } }, [])).1)) ∧
      run_release appOk os0 [RunEvent.Ready, RunEvent.ExitRequested, RunEvent.Exit]
        = Except.ok ([RunEvent.Ready, RunEvent.ExitRequested,
            RunEvent.Exit].foldl (step_release os0)
            (some { poisoned := false, child := some { pid := 42 } }, [])) ∧
      slotOk c (([RunEvent.Ready, RunEvent.ExitRequested,
          RunEvent.Exit].foldl (step_release os0)
          (some { poisoned := false, child := some { pid := 42 } }, [])).1) :=
  ⟨rfl,
   C8_single_slot_invariant appOk os0
     [RunEvent.Ready, RunEvent.ExitRequested, RunEvent.Exit]
     (some { poisoned := false, child := some { pid := 42 } }) rfl⟩

/-- Auxiliary: the debug run-loop handler touches nothing, whatever the
event. -/
theorem handle_run_event_debug_noop (ev : RunEvent)
    (st : Option LocalServerState) : handle_run_event_debug ev st = (st, []) := by
  cases ev <;> rfl

/-- Auxiliary: the debug run loop leaves the empty state and the empty
action trace untouched. -/
theorem foldl_step_debug_const (events : List RunEvent) :
    events.foldl step_debug ((none : Option LocalServerState),
      ([] : List ProcAction)) = (none, []) := by
  induction events with
  | nil => rfl
  | cons ev rest ih =>
    rw [List.foldl_cons]
    have h1 : step_debug ((none : Option LocalServerState),
        ([] : List ProcAction)) ev = (none, []) := by
      simp [step_debug, handle_run_event_debug_noop]
    rw [h1, ih]

/-- Claim C9: in debug configuration, setup installs the structured logging
plugin at Info verbosity and no managed state; the exit-event handler is a
no-op for every event; and a whole debug run tracks no state and performs
no process action (the debug context has no spawn capability at all). -/
theorem C9_debug_mode (ctx : DebugCtx) (u : Unit)
    (h : ctx.installPlugin { level := LevelFilter.Info } = Except.ok u) :
    setup_debug ctx = Except.ok none ∧
    (∀ ev st, handle_run_event_debug ev st = (st, [])) ∧
    ∀ events, run_debug ctx events = Except.ok (none, []) := by
  have hsetup : setup_debug ctx = Except.ok none := by
    simp only [setup_debug, h]
  refine ⟨hsetup, fun ev st => handle_run_event_debug_noop ev st, ?_⟩
  intro events
  simp only [run_debug, hsetup]
  rw [foldl_step_debug_const]

/-- Witness for C9: the concrete debug context whose plugin registration
succeeds. -/
theorem C9_witness :
    debugCtx0.installPlugin { level := LevelFilter.Info } = Except.ok () ∧
    setup_debug debugCtx0 = Except.ok none :=
  ⟨rfl, (C9_debug_mode debugCtx0 () rfl).1⟩

end NeuralOS
